import Mathlib

/-!
Shallow embedding of the time-vault time-lock engine
(`src/app/services/drand_service.py` and `src/app/api/v1/messages.py`).

Conventions of the embedding:
* Wall-clock instants (`datetime` values, Unix timestamps) are integers of
  whole seconds; Python's float division followed by `int(...)` is modelled
  as exact rational division truncated toward zero, `Int.tdiv`.
* A raised `fastapi.HTTPException` is an `Except.error` carrying the
  status code and detail string.
* Network calls (`httpx` fetches of drand chain info and rounds) are
  modelled by passing the call's outcome as an explicit argument.
* External library functions (pycryptodome `SHA256` hex digests,
  `json.dumps`) are parameters of the definitions that use them; a JSON
  document is represented by its parsed structure, so `json.dumps`
  followed by `json.loads` is the identity on that structure.
-/

namespace TimeVault

deriving instance DecidableEq for Except

/-- A raised `fastapi.HTTPException`: status code plus detail message. -/
structure HTTPException where
  status_code : Nat
  detail : String
deriving DecidableEq, Repr

/-- Parsed body of drand `GET /info`: the fields `drand_service.py` reads
(`genesis_time`, `period`; the chain hash is irrelevant to the engine). -/
structure ChainInfo where
  genesis_time : Int
  period : Int
deriving DecidableEq, Repr

/-- Parsed body of drand `GET /public/{chain}/round/{n}`. -/
structure DrandRound where
  round : Int
  randomness : String
  signature : String
deriving DecidableEq, Repr

/-- Outcome of a raw `httpx` GET: a 2xx body, a non-2xx status error
(`httpx.HTTPStatusError`, carrying the response status code), or a
transport-level failure with no response. -/
inductive HttpFetch (α : Type) where
  | success (body : α)
  | statusError (code : Nat)
  | transportError
deriving DecidableEq, Repr

/-- `DrandService.get_round`: translate the raw fetch of a specific round.
A 404 status becomes HTTP 404 "Round not found"; every other `httpx`
failure becomes HTTP 503. -/
def get_round (round_number : Int) (fetch : HttpFetch DrandRound) :
    Except HTTPException DrandRound :=
  match fetch with
  | .success r => .ok r
  | .statusError code =>
      if code = 404 then
        .error ⟨404, "Round " ++ toString round_number ++ " not found"⟩
      else
        .error ⟨503, "Error fetching round " ++ toString round_number ++ " from drand"⟩
  | .transportError =>
      .error ⟨503, "Error fetching round " ++ toString round_number ++ " from drand"⟩

/-- `DrandService.compute_round_for_time`. `info` is the outcome of
`get_chain_info()`; `target_timestamp` is `target_time` as Unix seconds.
Python's `int((t - genesis) / period) + 1` truncates toward zero:
`Int.tdiv`. -/
def compute_round_for_time (info : Except HTTPException ChainInfo)
    (target_timestamp : Int) : Except HTTPException Int :=
  match info with
  | .error e => .error e
  | .ok ci => .ok ((target_timestamp - ci.genesis_time).tdiv ci.period + 1)

/-- `DrandService.is_round_available`, taking the outcome of the inner
`get_round` call: `true` on success, `false` on a 404, re-raise anything
else. -/
def is_round_available (fetch : Except HTTPException DrandRound) :
    Except HTTPException Bool :=
  match fetch with
  | .ok _ => .ok true
  | .error e => if e.status_code = 404 then .ok false else .error e

/-- `DrandService.time_for_round`: `genesis_time + round_number * period`,
as a Unix timestamp. The only failure path is the `get_chain_info()`
fetch; the round number itself is not validated. -/
def time_for_round (info : Except HTTPException ChainInfo)
    (round_number : Int) : Except HTTPException Int :=
  match info with
  | .error e => .error e
  | .ok ci => .ok (ci.genesis_time + round_number * ci.period)

/-- The parsed content of the JSON document built by
`DrandService.encrypt_message`: target round, SHA-256 hex digest of the
message, and the payload (the plaintext itself in this design). -/
structure EncryptedData where
  target_round : Int
  message_hash : String
  payload : String
deriving DecidableEq, Repr

/-- `DrandService.encrypt_message`. `sha256hex` models the pycryptodome
SHA-256 hex digest and `dumps` models `json.dumps` on the envelope.
Returns the envelope (the parsed form of the `encrypted_message` JSON
string) and the `verification_hash` of its serialization. -/
def encrypt_message (sha256hex : String → String)
    (dumps : EncryptedData → String) (message : String)
    (target_round : Int) : EncryptedData × String :=
  let d : EncryptedData :=
    { target_round := target_round
      message_hash := sha256hex message
      payload := message }
  (d, sha256hex (dumps d))

/-- `DrandService.decrypt_message`. `is_round_avail` is the
`is_round_available` call (it may raise); `parsed` is the result of
`json.loads` on the input, `none` meaning `JSONDecodeError`. Returns the
payload when the target round is available, `None` when it is not. -/
def decrypt_message (is_round_avail : Int → Except HTTPException Bool)
    (parsed : Option EncryptedData) : Except HTTPException (Option String) :=
  match parsed with
  | none => .error ⟨400, "Invalid encrypted data format"⟩
  | some d =>
      match is_round_avail d.target_round with
      | .error e => .error e
      | .ok true => .ok (some d.payload)
      | .ok false => .ok none

/-- `app.models.common.ContentType`. -/
inductive ContentType where
  | text
  | image
  | video
deriving DecidableEq, Repr

/-- `app.models.vault.MessageCountStats`: the vault's aggregate counters
(Python ints, so they may go negative). -/
structure MessageCountStats where
  total : Int
  locked : Int
  unlocked : Int
deriving DecidableEq, Repr

/-- `app.models.vault.Message`. `unlock_time` and `created_at` are Unix
seconds. The authentication-glue fields (`created_by`,
`transaction_hash`) play no part in the engine and are elided with the
permission checks. -/
structure Message where
  id : String
  title : String
  content_type : ContentType
  unlock_time : Int
  created_at : Int
  is_locked : Bool
  content : Option String := none
  media_url : Option String := none
  encrypted_hash : Option String := none
  size : Option Int := none
deriving DecidableEq, Repr

/-- `app.models.vault.Vault`, restricted to the fields the message
endpoints touch. `create_vault` initialises `messages = []` and
`message_count = {total: 0, locked: 0, unlocked: 0}`, so both are modelled
as always present (`None` behaves as the empty list / gets initialised by
`add_vault_message` before any use). -/
structure Vault where
  messages : List Message
  message_count : MessageCountStats
  updated_at : Int
deriving DecidableEq, Repr

/-- `app.models.vault.MessageCreation` (the request body of the create
endpoint). -/
structure MessageCreation where
  title : String
  content_type : ContentType
  content : Option String := none
  unlock_time : Int
  media_content_hash : Option String := none
deriving DecidableEq, Repr

/-- The `status` query filter of the list endpoint
(`app.models.vault.MessageStatus`). -/
inductive MessageStatus where
  | locked
  | unlocked
  | all
deriving DecidableEq, Repr

/-- `get_vault_messages` (`messages.py` lines 46-64), after the vault and
permission lookups. `vault.messages.copy()` is a shallow copy, so the
in-place update `message.is_locked = message.unlock_time > now` mutates
the stored messages: the result is the updated vault together with the
filtered, paginated response list. No beacon query is involved. -/
def get_vault_messages (now : Int) (status : MessageStatus)
    (limit offset : Nat) (vault : Vault) : Vault × List Message :=
  let messages : List Message := vault.messages.map
    (fun m => { m with is_locked := decide (m.unlock_time > now) })
  let filtered_messages : List Message :=
    match status with
    | .locked => messages.filter (fun m => m.is_locked)
    | .unlocked => messages.filter (fun m => !m.is_locked)
    | .all => messages
  ({ vault with messages := messages },
   (filtered_messages.drop offset).take limit)

/-- The `Message` built by `add_vault_message` (lines 112-146 of
`messages.py`) for a given generated id and computed target round:
created LOCKED, with content withheld (TEXT) or the media hash recorded
(IMAGE/VIDEO). The pydantic validator guarantees `content` is present
for TEXT messages, modelled by `getD ""`. -/
def buildMessage (sha256hex : String → String)
    (dumps : EncryptedData → String) (new_id : String) (now : Int)
    (message_data : MessageCreation) (target_round : Int) : Message :=
  let base : Message :=
    { id := new_id
      title := message_data.title
      content_type := message_data.content_type
      unlock_time := message_data.unlock_time
      created_at := now
      is_locked := true }
  match message_data.content_type with
  | .text =>
      { base with
          encrypted_hash := some (encrypt_message sha256hex dumps
            (message_data.content.getD "") target_round).2
          size := some ((message_data.content.getD "").length : Int)
          content := none }
  | _ =>
      { base with
          media_url := none
          encrypted_hash := message_data.media_content_hash }

/-- `add_vault_message` (`messages.py` lines 67-168), after the vault and
permission lookups. `new_id` models the generated `uuid4`; `sha256hex`
and `dumps` as in `encrypt_message`. -/
def add_vault_message (now : Int) (info : Except HTTPException ChainInfo)
    (sha256hex : String → String) (dumps : EncryptedData → String)
    (new_id : String) (message_data : MessageCreation) (vault : Vault) :
    Except HTTPException (Vault × Message) :=
  if message_data.unlock_time ≤ now then
    .error ⟨400, "Unlock time must be in the future"⟩
  else
    match compute_round_for_time info message_data.unlock_time with
    | .error e => .error e
    | .ok target_round =>
        .ok ({ vault with
                 messages := vault.messages ++
                   [buildMessage sha256hex dumps new_id now message_data
                     target_round]
                 message_count :=
                   { total := vault.message_count.total + 1
                     locked := vault.message_count.locked + 1
                     unlocked := vault.message_count.unlocked }
                 updated_at := now },
             buildMessage sha256hex dumps new_id now message_data
               target_round)

/-- Python `f"...{x}..."` on an `Optional[str]`. -/
def pyStr : Option String → String
  | none => "None"
  | some s => s

/-- The in-place reveal performed by `get_message_details` once the round
is available: set the placeholder content (TEXT) or the media URL
(IMAGE/VIDEO) and clear `is_locked`. -/
def unlockMessage (message_id : String) (m : Message) : Message :=
  match m.content_type with
  | .text =>
      { m with
          content := some ("This is the decrypted content for message "
            ++ message_id)
          is_locked := false }
  | _ =>
      { m with
          media_url := some ("https://example.com/media/"
            ++ pyStr m.encrypted_hash)
          is_locked := false }

/-- Replace the first list element satisfying `p` (the
`for i, m in enumerate(...)` / `vault.messages[i] = message` loop). -/
def setFirst (p : Message → Bool) (newm : Message) :
    List Message → List Message
  | [] => []
  | m :: rest => if p m then newm :: rest else m :: setFirst p newm rest

/-- `get_message_details` (`messages.py` lines 171-252), after the vault
and permission lookups. `info` is the `get_chain_info()` outcome
consumed by `compute_round_for_time`; `fetchRound` gives the outcome of
`get_round` for each round number, consumed by `is_round_available`.
Returns the (possibly updated) vault and the returned message. -/
def get_message_details (now : Int) (info : Except HTTPException ChainInfo)
    (fetchRound : Int → Except HTTPException DrandRound)
    (message_id : String) (vault : Vault) :
    Except HTTPException (Vault × Message) :=
  match vault.messages.find? (fun m => m.id == message_id) with
  | none => .error ⟨404, "Message not found"⟩
  | some message =>
      if message.unlock_time ≤ now ∧ message.is_locked = true then
        match compute_round_for_time info message.unlock_time with
        | .error e => .error e
        | .ok target_round =>
            match is_round_available (fetchRound target_round) with
            | .error e => .error e
            | .ok false => .ok (vault, message)
            | .ok true =>
                .ok ({ vault with
                         messages := setFirst (fun m => m.id == message_id)
                           (unlockMessage message_id message) vault.messages
                         message_count :=
                           { vault.message_count with
                               locked := vault.message_count.locked - 1
                               unlocked := vault.message_count.unlocked + 1 } },
                     unlockMessage message_id message)
      else
        .ok (vault, message)

/-- Remove the first list element satisfying `p`, returning it and the
remaining list (the find-index / `vault.messages.pop(message_index)`
sequence of `delete_message`). -/
def removeFirst (p : Message → Bool) :
    List Message → Option (Message × List Message)
  | [] => none
  | m :: rest =>
      if p m then some (m, rest)
      else match removeFirst p rest with
        | none => none
        | some (x, l) => some (x, m :: l)

/-- `delete_message` (`messages.py` lines 255-320), after the vault and
permission lookups. Decrements `total` and the bucket matching the
message's `is_locked` flag at deletion time. -/
def delete_message (now : Int) (message_id : String) (vault : Vault) :
    Except HTTPException Vault :=
  match removeFirst (fun m => m.id == message_id) vault.messages with
  | none => .error ⟨404, "Message not found"⟩
  | some (message, rest) =>
      .ok { vault with
              messages := rest
              message_count :=
                { total := vault.message_count.total - 1
                  locked :=
                    if message.is_locked then vault.message_count.locked - 1
                    else vault.message_count.locked
                  unlocked :=
                    if message.is_locked then vault.message_count.unlocked
                    else vault.message_count.unlocked - 1 }
              updated_at := now }

/-- One API operation on a vault, with the operation's external inputs
(clock reading, beacon outcomes, request body) carried as data. -/
inductive Op where
  | create (now : Int) (info : Except HTTPException ChainInfo)
      (sha256hex : String → String) (dumps : EncryptedData → String)
      (new_id : String) (message_data : MessageCreation)
  | list (now : Int) (status : MessageStatus) (limit offset : Nat)
  | read (now : Int) (info : Except HTTPException ChainInfo)
      (fetchRound : Int → Except HTTPException DrandRound)
      (message_id : String)
  | delete (now : Int) (message_id : String)

/-- Apply one operation to a vault. Every endpoint raises before its first
mutation of the vault, so a raised `HTTPException` leaves the stored
vault unchanged. -/
def applyOp (op : Op) (vault : Vault) : Vault :=
  match op with
  | .create now info sha dumps new_id md =>
      match add_vault_message now info sha dumps new_id md vault with
      | .ok (v', _) => v'
      | .error _ => vault
  | .list now status limit offset =>
      (get_vault_messages now status limit offset vault).1
  | .read now info fetchRound mid =>
      match get_message_details now info fetchRound mid vault with
      | .ok (v', _) => v'
      | .error _ => vault
  | .delete now mid =>
      match delete_message now mid vault with
      | .ok v' => v'
      | .error _ => vault

/-- Apply a sequence of operations, oldest first. -/
def applyOps (ops : List Op) (vault : Vault) : Vault :=
  ops.foldl (fun v op => applyOp op v) vault

/-- The spec's vault counter invariant:
`total = locked + unlocked = |messages|`. -/
def counterInv (v : Vault) : Prop :=
  v.message_count.total = v.message_count.locked + v.message_count.unlocked ∧
  v.message_count.total = (v.messages.length : Int)

instance : DecidablePred counterInv := fun v => by
  unfold counterInv; infer_instance

/-! ### Concrete fixtures used by witnesses and counterexamples -/

/-- A stored LOCKED text message whose unlock time (Unix second 0) has
passed for any positive `now`. -/
def msgLocked : Message :=
  { id := "m1"
    title := "Time Locked Secret"
    content_type := .text
    unlock_time := 0
    created_at := 0
    is_locked := true }

/-- A stored message that has already been revealed. -/
def msgOpen : Message :=
  { id := "m2"
    title := "Already revealed"
    content_type := .text
    unlock_time := 0
    created_at := 0
    is_locked := false
    content := some "hello" }

/-- A vault holding exactly `msgLocked`, with consistent counters. -/
def vault1 : Vault :=
  { messages := [msgLocked]
    message_count := { total := 1, locked := 1, unlocked := 0 }
    updated_at := 0 }

/-- A vault holding exactly `msgOpen`, with consistent counters. -/
def vaultOpen : Vault :=
  { messages := [msgOpen]
    message_count := { total := 1, locked := 0, unlocked := 1 }
    updated_at := 0 }

/-- A freshly created, empty vault. -/
def vault0 : Vault :=
  { messages := []
    message_count := { total := 0, locked := 0, unlocked := 0 }
    updated_at := 0 }

/-- A successful chain-info fetch: genesis at Unix second 100, 30-second
period. -/
def infoOk : Except HTTPException ChainInfo := .ok ⟨100, 30⟩

/-- An arbitrary produced round body. -/
def round1 : DrandRound := ⟨1, "aa", "bb"⟩

/-- A beacon where every round fetch succeeds. -/
def fetchOk : Int → Except HTTPException DrandRound := fun _ => .ok round1

/-- A beacon where every round fetch fails with a 503 transport error. -/
def fetch503 : Int → Except HTTPException DrandRound :=
  fun _ => .error ⟨503, "drand down"⟩

/-- A concrete create-message request body. -/
def mc1 : MessageCreation :=
  { title := "t"
    content_type := .text
    content := some "hi"
    unlock_time := 20 }

/-- A stand-in for the SHA-256 hex digest in concrete evaluations. -/
def shaFix : String → String := fun s => "sha:" ++ s

/-- A stand-in for `json.dumps` in concrete evaluations. -/
def dumpsFix : EncryptedData → String := fun d => d.payload

/-- `msgLocked` after the read endpoint reveals it. -/
def msgRevealed : Message := unlockMessage "m1" msgLocked

/-- `vault1` after a read of `msgLocked` unlocks it. -/
def vault1Read : Vault :=
  { messages := [msgRevealed]
    message_count := { total := 1, locked := 0, unlocked := 1 }
    updated_at := 0 }

/-- A concrete operation sequence: create a message, list (past its
unlock time), read it (round available), delete it. -/
def opsFix : List Op :=
  [.create 5 infoOk shaFix dumpsFix "m9" mc1,
   .list 25 .all 50 0,
   .read 25 infoOk fetchOk "m9",
   .delete 26 "m9"]

end TimeVault

namespace TimeVault

/-! ### Helper lemmas -/

theorem setFirst_length (p : Message → Bool) (nm : Message) :
    ∀ l : List Message, (setFirst p nm l).length = l.length := by
  intro l
  induction l with
  | nil => rfl
  | cons m rest ih =>
      unfold setFirst
      by_cases h : p m <;> simp [h, ih]

theorem removeFirst_length (p : Message → Bool) :
    ∀ (l l' : List Message) (m : Message),
      removeFirst p l = some (m, l') → l.length = l'.length + 1 := by
  intro l
  induction l with
  | nil => intro l' m h; simp [removeFirst] at h
  | cons x rest ih =>
      intro l' m h
      unfold removeFirst at h
      by_cases hx : p x
      · simp [hx] at h
        simp [← h.2]
      · simp [hx] at h
        cases hrec : removeFirst p rest with
        | none => rw [hrec] at h; simp at h
        | some pair =>
            rw [hrec] at h
            simp at h
            have := ih pair.2 pair.1 (by rw [hrec])
            simp [← h.2, this]

/-- Shape of a successful `add_vault_message`: the new message is
appended and `total`/`locked` are incremented. -/
theorem add_vault_message_ok (now : Int)
    (info : Except HTTPException ChainInfo) (sha : String → String)
    (dumps : EncryptedData → String) (new_id : String)
    (md : MessageCreation) (v v' : Vault) (msg : Message)
    (h : add_vault_message now info sha dumps new_id md v = .ok (v', msg)) :
    v'.messages = v.messages ++ [msg] ∧
    v'.message_count.total = v.message_count.total + 1 ∧
    v'.message_count.locked = v.message_count.locked + 1 ∧
    v'.message_count.unlocked = v.message_count.unlocked := by
  unfold add_vault_message at h
  split at h
  · simp at h
  · split at h
    · simp at h
    · simp only [Except.ok.injEq, Prod.mk.injEq] at h
      obtain ⟨hv, hmsg⟩ := h
      subst hmsg
      rw [← hv]
      exact ⟨rfl, rfl, rfl, rfl⟩

/-- Shape of a successful `get_message_details`: either the vault is
untouched, or one message is replaced in place and one unit moves from
the `locked` bucket to the `unlocked` bucket. -/
theorem get_message_details_ok (now : Int)
    (info : Except HTTPException ChainInfo)
    (fetchRound : Int → Except HTTPException DrandRound) (mid : String)
    (v v' : Vault) (m' : Message)
    (h : get_message_details now info fetchRound mid v = .ok (v', m')) :
    v' = v ∨
    (v'.messages = setFirst (fun m => m.id == mid) m' v.messages ∧
     v'.message_count.total = v.message_count.total ∧
     v'.message_count.locked = v.message_count.locked - 1 ∧
     v'.message_count.unlocked = v.message_count.unlocked + 1) := by
  unfold get_message_details at h
  split at h
  · simp at h
  · split at h
    · split at h
      · simp at h
      · split at h
        · simp at h
        · simp only [Except.ok.injEq, Prod.mk.injEq] at h
          exact Or.inl h.1.symm
        · simp only [Except.ok.injEq, Prod.mk.injEq] at h
          obtain ⟨hv, hmsg⟩ := h
          subst hmsg
          right
          rw [← hv]
          exact ⟨rfl, rfl, rfl, rfl⟩
    · simp only [Except.ok.injEq, Prod.mk.injEq] at h
      exact Or.inl h.1.symm

/-- Shape of a successful `delete_message`: the first matching message
is removed, `total` drops by one, and the bucket matching its lock flag
drops by one. -/
theorem delete_message_ok (now : Int) (mid : String) (v v' : Vault)
    (h : delete_message now mid v = .ok v') :
    ∃ m rest, removeFirst (fun x => x.id == mid) v.messages = some (m, rest) ∧
      v'.messages = rest ∧
      v'.message_count.total = v.message_count.total - 1 ∧
      v'.message_count.locked + v'.message_count.unlocked =
        v.message_count.locked + v.message_count.unlocked - 1 := by
  unfold delete_message at h
  split at h
  · simp at h
  next m rest heq =>
    refine ⟨m, rest, heq, ?_⟩
    simp only [Except.ok.injEq] at h
    rw [← h]
    refine ⟨rfl, rfl, ?_⟩
    by_cases hl : m.is_locked = true <;> simp [hl] <;> ring

/-- The counter invariant is preserved by every single operation. -/
theorem counterInv_applyOp (op : Op) (v : Vault) (h : counterInv v) :
    counterInv (applyOp op v) := by
  obtain ⟨hsum, hlen⟩ := h
  cases op with
  | create now info sha dumps new_id md =>
      simp only [applyOp]
      cases hres : add_vault_message now info sha dumps new_id md v with
      | error e => exact ⟨hsum, hlen⟩
      | ok p =>
          obtain ⟨v', msg⟩ := p
          obtain ⟨hm, ht, hl, hu⟩ :=
            add_vault_message_ok _ _ _ _ _ _ _ _ _ hres
          show counterInv v'
          constructor
          · rw [ht, hl, hu]; omega
          · rw [ht, hm]
            simp only [List.length_append, List.length_cons, List.length_nil]
            omega
  | list now status limit offset =>
      simp only [applyOp]
      unfold get_vault_messages counterInv
      simp only [List.length_map]
      exact ⟨hsum, hlen⟩
  | read now info fetchRound mid =>
      simp only [applyOp]
      cases hres : get_message_details now info fetchRound mid v with
      | error e => exact ⟨hsum, hlen⟩
      | ok p =>
          obtain ⟨v', m'⟩ := p
          show counterInv v'
          rcases get_message_details_ok _ _ _ _ _ _ _ hres with
            hv | ⟨hm, ht, hl, hu⟩
          · rw [hv]; exact ⟨hsum, hlen⟩
          · constructor
            · rw [ht, hl, hu]; omega
            · rw [ht, hm, setFirst_length]; exact hlen
  | delete now mid =>
      simp only [applyOp]
      cases hres : delete_message now mid v with
      | error e => exact ⟨hsum, hlen⟩
      | ok v' =>
          obtain ⟨m, rest, hrem, hm, ht, hlu⟩ :=
            delete_message_ok _ _ _ _ hres
          have hL := removeFirst_length _ _ _ _ hrem
          show counterInv v'
          constructor
          · omega
          · rw [ht, hm]; omega

/-! ### Claim theorems -/

/-- C3 (counterexample): the claim says a target time strictly before
`genesisTime` yields round 1 (clamped). With genesis 100, period 30 and
target time 55, `compute_round_for_time` returns round 0 — Python's
`int(...)` truncation with no clamping — not 1 (and not
`floor((55-100)/30)+1 = -1` either). -/
theorem compute_round_no_clamp_cex :
    compute_round_for_time (.ok ⟨100, 30⟩) 55 = .ok 0 ∧
    compute_round_for_time (.ok ⟨100, 30⟩) 55 ≠ .ok 1 := by
  constructor <;> decide

/-- C3 (amended): for `period > 0`, the conversion returns
`trunc((t − genesisTime)/period) + 1`. For `t ≥ genesisTime` this equals
`floor((t − genesisTime)/period) + 1` as the claim states; for `t`
strictly before `genesisTime` the result is at most 1 and is not clamped
(it can be 0 or negative). -/
theorem compute_round_for_time_spec (genesis period t : Int)
    (hp : 0 < period) :
    (genesis ≤ t →
      compute_round_for_time (.ok ⟨genesis, period⟩) t =
        .ok ((t - genesis).fdiv period + 1)) ∧
    (t < genesis →
      ∃ r, compute_round_for_time (.ok ⟨genesis, period⟩) t = .ok r ∧
        r ≤ 1) := by
  constructor
  · intro hge
    show Except.ok ((t - genesis).tdiv period + 1) = _
    rw [Int.fdiv_eq_tdiv (by omega) hp.le]
  · intro hlt
    refine ⟨(t - genesis).tdiv period + 1, rfl, ?_⟩
    have h1 : 0 ≤ (-(t - genesis)).tdiv period :=
      Int.tdiv_nonneg (by omega) hp.le
    have h2 : (-(t - genesis)).tdiv period = -((t - genesis).tdiv period) :=
      Int.neg_tdiv _ _
    omega

/-- C3 witness: at genesis 100, period 30, t = 160 ≥ genesis the floor
formula applies: `floor(60/30) + 1 = 3`. -/
theorem compute_round_for_time_spec_witness :
    compute_round_for_time (.ok ⟨100, 30⟩) 160 =
      .ok (((160 : Int) - 100).fdiv 30 + 1) :=
  (compute_round_for_time_spec 100 30 160 (by decide)).1 (by decide)

/-- C4: for `period > 0` and `r ≥ 1`, the round computed for the exact
expected availability time of round `r` is strictly the next round,
`r + 1`. -/
theorem round_for_time_of_round (genesis period r t : Int)
    (hp : 0 < period) (_hr : 1 ≤ r)
    (ht : time_for_round (.ok ⟨genesis, period⟩) r = .ok t) :
    compute_round_for_time (.ok ⟨genesis, period⟩) t = .ok (r + 1) := by
  unfold time_for_round at ht
  simp only [Except.ok.injEq] at ht
  show Except.ok ((t - genesis).tdiv period + 1) = _
  rw [← ht]
  have harg : genesis + r * period - genesis = r * period := by ring
  rw [harg, Int.mul_tdiv_cancel r hp.ne']

/-- C4 witness: the spec's own scenario, genesis 1595431050, period 30:
round 11 is expected at genesis + 330, and the round computed for that
instant is 12. -/
theorem round_for_time_of_round_witness :
    compute_round_for_time (.ok ⟨1595431050, 30⟩) 1595431380 = .ok 12 :=
  round_for_time_of_round 1595431050 30 11 1595431380 (by decide)
    (by decide) (by decide)

/-- C5 (counterexample): the reveal operation performs no integrity
check. Two envelopes carrying the same integrity tag but different
contents are both revealed successfully while their round is available;
a reveal that verified the tag against the content would have to reject
at least one of them, and no `IntegrityMismatch` failure ever occurs. -/
theorem decrypt_no_integrity_check_cex :
    decrypt_message (fun _ => .ok true) (some ⟨7, "sametag", "payload A"⟩) =
      .ok (some "payload A") ∧
    decrypt_message (fun _ => .ok true) (some ⟨7, "sametag", "payload B"⟩) =
      .ok (some "payload B") :=
  ⟨rfl, rfl⟩

/-- C5 (amended): when the envelope's target round is available, the
reveal operation returns the embedded payload unconditionally; its
result does not depend on the stored integrity tag, and no
`IntegrityMismatch` failure path exists. -/
theorem decrypt_ignores_integrity_tag
    (avail : Int → Except HTTPException Bool) (r : Int)
    (tag tag' payload : String) (h : avail r = .ok true) :
    decrypt_message avail (some ⟨r, tag, payload⟩) = .ok (some payload) ∧
    decrypt_message avail (some ⟨r, tag', payload⟩) =
      decrypt_message avail (some ⟨r, tag, payload⟩) := by
  simp [decrypt_message, h]

/-- C5 witness: a concrete available round with two distinct tags. -/
theorem decrypt_ignores_integrity_tag_witness :
    decrypt_message (fun _ => .ok true) (some ⟨3, "t1", "p"⟩) =
      .ok (some "p") ∧
    decrypt_message (fun _ => .ok true) (some ⟨3, "t2", "p"⟩) =
      decrypt_message (fun _ => .ok true) (some ⟨3, "t1", "p"⟩) :=
  decrypt_ignores_integrity_tag (fun _ => .ok true) 3 "t1" "t2" "p" rfl

/-- C7: `is_round_available` returns `true` when the round fetch
succeeds, returns `false` (not an error) when the fetch signals
RoundNotFound — a 404, whether already translated by `get_round` from an
HTTP 404 status — and re-raises every other failure of the fetch
unchanged. -/
theorem is_round_available_spec (n : Int) (f : HttpFetch DrandRound) :
    (∀ r, f = .success r →
      is_round_available (get_round n f) = .ok true) ∧
    (f = .statusError 404 →
      is_round_available (get_round n f) = .ok false) ∧
    (∀ e, get_round n f = .error e → e.status_code ≠ 404 →
      is_round_available (get_round n f) = .error e) := by
  refine ⟨?_, ?_, ?_⟩
  · rintro r rfl
    rfl
  · rintro rfl
    rfl
  · intro e he h404
    rw [he]
    unfold is_round_available
    simp [h404]

/-- C7 witness: the three behaviours at concrete fetch outcomes. -/
theorem is_round_available_spec_witness :
    is_round_available (get_round 5 (.success round1)) = .ok true ∧
    is_round_available (get_round 5 (.statusError 404)) = .ok false ∧
    is_round_available (get_round 5 .transportError) =
      .error ⟨503, "Error fetching round 5 from drand"⟩ :=
  ⟨(is_round_available_spec 5 (.success round1)).1 round1 rfl,
   (is_round_available_spec 5 (.statusError 404)).2.1 rfl,
   (is_round_available_spec 5 .transportError).2.2
     ⟨503, "Error fetching round 5 from drand"⟩ rfl (by decide)⟩

/-- C8 (counterexample): the claim says the round-to-time conversion
fails with `InvalidInput` when `r < 1`; on round 0 with genesis 100 and
period 30 it instead succeeds and returns the genesis time. -/
theorem time_for_round_no_validation_cex :
    time_for_round (.ok ⟨100, 30⟩) 0 = .ok 100 := rfl

/-- C8 (amended): the conversion returns `genesisTime + r*period` for
every integer round index `r`, including `r < 1`: the round index is
never validated and no `InvalidInput` failure exists (the only failure
path is the chain-info fetch, whose error passes through). -/
theorem time_for_round_spec (genesis period r : Int) :
    time_for_round (.ok ⟨genesis, period⟩) r = .ok (genesis + r * period) ∧
    ∀ e, time_for_round (.error e) r = .error e :=
  ⟨rfl, fun _ => rfl⟩

/-- C10: sealing a plaintext for round `r` and revealing the resulting
envelope while round `r` is available returns exactly the original
plaintext. -/
theorem encrypt_decrypt_roundtrip (sha256hex : String → String)
    (dumps : EncryptedData → String)
    (avail : Int → Except HTTPException Bool) (m : String) (r : Int)
    (h : avail r = .ok true) :
    decrypt_message avail (some (encrypt_message sha256hex dumps m r).1) =
      .ok (some m) := by
  simp [encrypt_message, decrypt_message, h]

/-- C10 witness: a concrete seal/reveal round trip. -/
theorem encrypt_decrypt_roundtrip_witness :
    decrypt_message (fun _ => .ok true)
      (some (encrypt_message shaFix dumpsFix "attack at dawn" 42).1) =
      .ok (some "attack at dawn") :=
  encrypt_decrypt_roundtrip shaFix dumpsFix (fun _ => .ok true)
    "attack at dawn" 42 rfl

/-- C1 (counterexample): listing a vault's messages moves a stored
message out of the LOCKED state on wall-clock time alone.
`get_vault_messages` consults no beacon (it takes no availability
input at all), yet listing `vault1` at `now = 10` flips its stored
LOCKED message (unlock time 0) to unlocked. -/
theorem list_unlocks_on_clock_cex :
    msgLocked.is_locked = true ∧
    ((get_vault_messages 10 .all 50 0 vault1).1.messages.map
      Message.is_locked) = [false] := by
  decide

/-- C1 (amended): reading a single message moves it from LOCKED to
UNLOCKED only when the beacon round targeted for its unlock time is
available; listing a vault's messages, however, rewrites every stored
message's lock state from wall-clock time alone
(`is_locked := unlock_time > now`), without consulting the beacon. -/
theorem unlock_transition_guard :
    (∀ (now : Int) (info : Except HTTPException ChainInfo)
       (fetchRound : Int → Except HTTPException DrandRound)
       (mid : String) (v v' : Vault) (m m' : Message),
       v.messages.find? (fun x => x.id == mid) = some m →
       m.is_locked = true →
       get_message_details now info fetchRound mid v = .ok (v', m') →
       m'.is_locked = false →
       ∃ r, compute_round_for_time info m.unlock_time = .ok r ∧
         is_round_available (fetchRound r) = .ok true) ∧
    (∀ (now : Int) (status : MessageStatus) (limit offset : Nat)
       (v : Vault),
       (get_vault_messages now status limit offset v).1.messages =
         v.messages.map
           (fun m => { m with is_locked := decide (m.unlock_time > now) })) := by
  constructor
  · intro now info fetchRound mid v v' m m' hfind hlock hres hopen
    unfold get_message_details at hres
    rw [hfind] at hres
    split at hres
    next heq => exact absurd heq (by simp)
    next msg heq =>
      injection heq with hm
      subst hm
      split at hres
      · split at hres
        · simp at hres
        next tr htr =>
          split at hres
          · simp at hres
          next hav =>
            simp only [Except.ok.injEq, Prod.mk.injEq] at hres
            rw [← hres.2, hlock] at hopen
            simp at hopen
          next hav =>
            exact ⟨tr, htr, hav⟩
      · simp only [Except.ok.injEq, Prod.mk.injEq] at hres
        rw [← hres.2, hlock] at hopen
        simp at hopen
  · intro now status limit offset v
    rfl

/-- C1 witness: reading `vault1`'s past-due LOCKED message against an
always-successful beacon unlocks it, so the guard conclusion holds at
that instance. -/
theorem unlock_transition_guard_witness :
    ∃ r, compute_round_for_time infoOk msgLocked.unlock_time = .ok r ∧
      is_round_available (fetchOk r) = .ok true := by
  exact unlock_transition_guard.1 10 infoOk fetchOk "m1" vault1 vault1Read
    msgLocked msgRevealed (by decide) (by decide) (by decide) (by decide)

/-- C2 (counterexample): the `locked` counter does not count exactly the
LOCKED messages. Starting from consistent `vault1` (one LOCKED message,
counters `{1,1,0}`), listing at `now = 10` flips the message's stored
lock state without touching the counters: afterwards `locked = 1` while
no stored message is LOCKED. -/
theorem counter_drift_cex :
    counterInv vault1 ∧
    (get_vault_messages 10 .all 50 0 vault1).1.message_count.locked = 1 ∧
    ((get_vault_messages 10 .all 50 0 vault1).1.messages.filter
      (fun m => m.is_locked)).length = 0 := by
  decide

/-- C2 (amended): after every finite sequence of create-message,
list-messages, read-message and delete-message operations on a vault
whose counters are consistent, `total = locked + unlocked = |messages|`
still holds. (The stronger reading — that `locked` also counts exactly
the LOCKED messages — fails, since listing flips lock states without a
counter update.) -/
theorem counterInv_applyOps (ops : List Op) (v : Vault)
    (h : counterInv v) : counterInv (applyOps ops v) := by
  induction ops generalizing v with
  | nil => exact h
  | cons op rest ih => exact ih (applyOp op v) (counterInv_applyOp op v h)

/-- C2 witness: the invariant after a concrete create → list → read →
delete run from a fresh vault. -/
theorem counterInv_applyOps_witness : counterInv (applyOps opsFix vault0) :=
  counterInv_applyOps opsFix vault0 (by decide)

/-- C6: if the beacon fetch fails with a non-404 transport error while a
LOCKED, past-due message is read, the access surfaces that error to the
caller and the vault — message lock states, revealed content and
counters — is left unchanged. -/
theorem access_fail_closed (now : Int)
    (info : Except HTTPException ChainInfo)
    (fetchRound : Int → Except HTTPException DrandRound) (mid : String)
    (v : Vault) (m : Message) (tr : Int) (e : HTTPException)
    (hfind : v.messages.find? (fun x => x.id == mid) = some m)
    (hlock : m.is_locked = true) (htime : m.unlock_time ≤ now)
    (hcomp : compute_round_for_time info m.unlock_time = .ok tr)
    (hfetch : fetchRound tr = .error e) (h404 : e.status_code ≠ 404) :
    get_message_details now info fetchRound mid v = .error e ∧
    applyOp (.read now info fetchRound mid) v = v := by
  have h1 : get_message_details now info fetchRound mid v = .error e := by
    unfold get_message_details
    rw [hfind]
    show (if m.unlock_time ≤ now ∧ m.is_locked = true then _ else _) = _
    rw [if_pos ⟨htime, hlock⟩]
    simp only [hcomp, hfetch, is_round_available]
    simp [h404]
  refine ⟨h1, ?_⟩
  simp only [applyOp, h1]

/-- C6 witness: reading `vault1`'s past-due LOCKED message against a
beacon that is down (503 on every fetch) surfaces the 503 and leaves
the vault untouched. -/
theorem access_fail_closed_witness :
    get_message_details 10 infoOk fetch503 "m1" vault1 =
      .error ⟨503, "drand down"⟩ ∧
    applyOp (.read 10 infoOk fetch503 "m1") vault1 = vault1 :=
  access_fail_closed 10 infoOk fetch503 "m1" vault1 msgLocked (-2)
    ⟨503, "drand down"⟩ (by decide) (by decide) (by decide) (by decide)
    (by decide) (by decide)

/-- C9: accessing a message that is already UNLOCKED returns it with its
current revealed content and changes nothing: neither the message, nor
any lock state, nor the vault's counters. -/
theorem idempotent_access (now : Int)
    (info : Except HTTPException ChainInfo)
    (fetchRound : Int → Except HTTPException DrandRound) (mid : String)
    (v : Vault) (m : Message)
    (hfind : v.messages.find? (fun x => x.id == mid) = some m)
    (hopen : m.is_locked = false) :
    get_message_details now info fetchRound mid v = .ok (v, m) ∧
    applyOp (.read now info fetchRound mid) v = v := by
  have h1 : get_message_details now info fetchRound mid v = .ok (v, m) := by
    unfold get_message_details
    rw [hfind]
    show (if m.unlock_time ≤ now ∧ m.is_locked = true then _ else _) = _
    rw [if_neg (by simp [hopen])]
  refine ⟨h1, ?_⟩
  simp only [applyOp, h1]

/-- C9 witness: re-reading the already revealed message of `vaultOpen`
returns it unchanged and leaves the vault untouched. -/
theorem idempotent_access_witness :
    get_message_details 99 infoOk fetchOk "m2" vaultOpen =
      .ok (vaultOpen, msgOpen) ∧
    applyOp (.read 99 infoOk fetchOk "m2") vaultOpen = vaultOpen :=
  idempotent_access 99 infoOk fetchOk "m2" vaultOpen msgOpen (by decide)
    (by decide)

end TimeVault
